import Mathlib

/-!
Verification development for the byteracer controller bridge.

Part 1 models the gamepad input normalization of the status component
(`getActionValue` and `computeSpeed`): a logical action is bound to a
button, to an axis, or unbound, and the component resolves it into a
numeric or boolean value.  Axis values are modelled as rationals.

Part 2 models the WebSocket provider (`WebSocketContext`): its connection
state machine, message dispatcher, heartbeat and bridge timers, and the
command-send functions.  Observable effects (socket sends, log sink calls,
dispatched DOM events, timer registration) are collected in an output list.
-/

/-- Binding type of a device mapping: the `type` field of a mapping object. -/
inductive BindingType
  | button
  | axis
  | unbound
deriving DecidableEq, Repr

/-- A device mapping entry: the binding type together with the bound index.
The source uses `index == -1` to mean not set. -/
structure Mapping where
  type : BindingType
  index : Int
deriving DecidableEq, Repr

/-- The gamepad context functions used by the component:
`isActionActive` and `getAxisValueForAction`.  The axis read returns
`none` when the value is null or undefined (the source applies a
nullish-coalescing fallback to 0 at each use site). -/
structure GamepadCtx where
  isActionActive : String → Bool
  getAxisValueForAction : String → Option ℚ

/-- A JavaScript value returned by `getActionValue`: a number or a boolean. -/
inductive JSValue
  | num (q : ℚ)
  | bool (b : Bool)
deriving DecidableEq, Repr

/-- Embedding of `getActionValue` from the status component: resolves an
action key through its mapping.  Missing mapping or `index == -1` yields
`false` for accelerate and brake and `0` otherwise; a button binding
yields the active state; an axis binding yields the axis value with a
fallback of `0`; the final fallback repeats the unbound result. -/
def getActionValue (ctx : GamepadCtx) (mappings : String → Option Mapping)
    (actionKey : String) : JSValue :=
  match mappings actionKey with
  | none =>
      if actionKey = "accelerate" || actionKey = "brake" then .bool false else .num 0
  | some mapping =>
      if mapping.index = -1 then
        (if actionKey = "accelerate" || actionKey = "brake" then .bool false else .num 0)
      else if mapping.type = .button then
        .bool (ctx.isActionActive actionKey)
      else if mapping.type = .axis then
        .num ((ctx.getAxisValueForAction actionKey).getD 0)
      else
        (if actionKey = "accelerate" || actionKey = "brake" then .bool false else .num 0)

/-- Embedding of the inner `accelerateValue` closure of `computeSpeed`. -/
def accelerateValue (ctx : GamepadCtx) (mappings : String → Option Mapping) : ℚ :=
  match mappings "accelerate" with
  | none => 0
  | some m =>
      if m.index = -1 then 0
      else if m.type = .button then
        (if ctx.isActionActive "accelerate" then 1 else 0)
      else if m.type = .axis then
        (ctx.getAxisValueForAction "accelerate").getD 0
      else 0

/-- Embedding of the inner `brakeValue` closure of `computeSpeed`. -/
def brakeValue (ctx : GamepadCtx) (mappings : String → Option Mapping) : ℚ :=
  match mappings "brake" with
  | none => 0
  | some m =>
      if m.index = -1 then 0
      else if m.type = .button then
        (if ctx.isActionActive "brake" then 1 else 0)
      else if m.type = .axis then
        (ctx.getAxisValueForAction "brake").getD 0
      else 0

/-- Embedding of `computeSpeed`: the resolved accelerate value minus the
resolved brake value, with no clamping. -/
def computeSpeed (ctx : GamepadCtx) (mappings : String → Option Mapping) : ℚ :=
  accelerateValue ctx mappings - brakeValue ctx mappings

/-- An action is unbound at a key when its mapping is missing or has index -1. -/
def UnboundAt (mappings : String → Option Mapping) (actionKey : String) : Prop :=
  mappings actionKey = none ∨ ∃ m, mappings actionKey = some m ∧ m.index = -1

/-- A JSON value, as produced by parsing an inbound frame or built for an
outbound envelope.  `undefV` models the JavaScript undefined produced by a
missing property read; `nan` models a non-numeric arithmetic result.
Numbers are modelled as integers, which covers every numeric field the
protocol carries in the claims (timestamps and battery levels). -/
inductive JsonVal
  | null
  | undefV
  | nan
  | bool (b : Bool)
  | num (n : Int)
  | str (s : String)
  | obj (fields : List (String × JsonVal))
  | arr (elems : List JsonVal)

/-- Property lookup on a list of JSON object fields; a missing key reads
as undefined. -/
def getField : List (String × JsonVal) → String → JsonVal
  | [], _ => .undefV
  | (k, v) :: rest, key => if k = key then v else getField rest key

/-- Property access `j.key` in JavaScript: undefined on non-objects. -/
def JsonVal.get : JsonVal → String → JsonVal
  | .obj fields, key => getField fields key
  | _, _ => .undefV

/-- JavaScript truthiness of a value, as used by `if (event.data.settings)`. -/
def JsonVal.truthy : JsonVal → Bool
  | .null => false
  | .undefV => false
  | .nan => false
  | .bool b => b
  | .num n => if n = 0 then false else true
  | .str s => if s = "" then false else true
  | .obj _ => true
  | .arr _ => true

/-- Numeric coercion of a JSON value, restricted to the integral values the
protocol uses: `none` stands for NaN. -/
def JsonVal.toNumber : JsonVal → Option Int
  | .num n => some n
  | .null => some 0
  | .bool b => some (if b then 1 else 0)
  | _ => none

/-- JavaScript subtraction `a - b` where `a` is a number and `b` is an
arbitrary value: NaN when `b` does not coerce to a number. -/
def jsSub (a : Int) (b : JsonVal) : JsonVal :=
  match b.toNumber with
  | some k => .num (a - k)
  | none => .nan

/-- WebSocket readyState values. -/
inductive ReadyState
  | CONNECTING
  | OPEN
  | CLOSING
  | CLOSED
deriving DecidableEq, Repr

/-- The numeric readyState constant, as included in log payloads. -/
def ReadyState.code : ReadyState → Int
  | .CONNECTING => 0
  | .OPEN => 1
  | .CLOSING => 2
  | .CLOSED => 3

/-- A WebSocket handle: an identity plus its readyState. -/
structure Socket where
  id : Nat
  readyState : ReadyState
deriving DecidableEq, Repr

/-- A socket is live when it is open or still connecting. -/
def Socket.isLive (sock : Socket) : Bool :=
  match sock.readyState with
  | .OPEN => true
  | .CONNECTING => true
  | _ => false

/-- Connection status of the provider. -/
inductive WStatus
  | connecting
  | connected
  | disconnected
deriving DecidableEq, Repr

/-- Observable effects of the provider: socket sends, debug-state tracking,
error-sink logging, console errors, dispatched DOM events, and heartbeat
interval registration. -/
inductive Output
  | send (e : JsonVal)
  | trackSent (e : JsonVal)
  | trackReceived (e : JsonVal)
  | trackConn (kind : String)
  | logErr (msg : String) (info : JsonVal)
  | consoleError (msg : String)
  | dispatchEvent (eventName : String) (detail : JsonVal)
  | startPingInterval (ms : Nat)

/-- The envelopes actually transmitted on the wire among a list of outputs. -/
def sentOf : Output → Option JsonVal
  | .send e => some e
  | _ => none

/-- All transmitted envelopes, in order. -/
def sends (outs : List Output) : List JsonVal :=
  outs.filterMap sentOf

/-- State of the WebSocket provider: connection status, every socket ever
created (with its readyState) and the identity of the current one, the two
timer flags, gamepad selection, a fresh-id counter, and the typed data
slots. -/
structure ConnState where
  status : WStatus
  sockets : List Socket
  current : Option Nat
  pingInterval : Bool
  bridgeTimer : Bool
  gamepadSelected : Bool
  nextId : Nat
  pingTime : Option JsonVal
  batteryLevel : Option JsonVal
  sensorData : Option JsonVal
  cameraStatus : Option JsonVal
  settings : Option JsonVal
  commandResponse : Option JsonVal

/-- The socket the provider currently references, if any. -/
def currentSocket (s : ConnState) : Option Socket :=
  s.current.bind (fun cid => s.sockets.find? (fun sock => sock.id = cid))

/-- Whether an optional socket handle is open. -/
def sockOpen : Option Socket → Bool
  | some sock => sock.readyState = .OPEN
  | none => false

/-- Whether the provider currently holds an open socket
(the `socket && socket.readyState === WebSocket.OPEN` guard). -/
def socketOpen (s : ConnState) : Bool :=
  sockOpen (currentSocket s)

/-- The `readyState` value recorded in log payloads: `socket?.readyState`. -/
def readyStateJson : Option Socket → JsonVal
  | some sock => .num sock.readyState.code
  | none => .undefV

/-- Close the socket with the given identity if it is live, as the guarded
`close()` calls do; closing moves it to CLOSING. -/
def closeSocketList (sockets : List Socket) (cur : Option Nat) : List Socket :=
  sockets.map fun sock =>
    if cur = some sock.id ∧ sock.isLive = true then
      { sock with readyState := .CLOSING }
    else sock

/-- Set the readyState of the socket with the given identity (used for the
platform transition to CLOSED when the close event fires). -/
def setReadyState (sockets : List Socket) (cur : Option Nat) (rs : ReadyState) :
    List Socket :=
  sockets.map fun sock =>
    if cur = some sock.id then { sock with readyState := rs } else sock

/-- The initial provider state: status connecting, no socket, no timers,
every data slot null. -/
def initState : ConnState where
  status := .connecting
  sockets := []
  current := none
  pingInterval := false
  bridgeTimer := false
  gamepadSelected := false
  nextId := 0
  pingTime := none
  batteryLevel := none
  sensorData := none
  cameraStatus := none
  settings := none
  commandResponse := none

/-- An inbound frame: the raw text together with the JSON parse outcome;
`parsed = none` models a frame on which the JSON parse throws. -/
structure Frame where
  raw : String
  parsed : Option JsonVal

/-- The ping envelope the heartbeat loop sends: name ping, data with the
send timestamp, createdAt the same timestamp. -/
def pingEnvelope (now : Int) : JsonVal :=
  .obj [("name", .str "ping"),
        ("data", .obj [("sentAt", .num now)]),
        ("createdAt", .num now)]

/-- The registration envelope sent on open: a controller client with a
random session identifier built from the random suffix. -/
def registerEnvelope (now : Int) (rid : String) : JsonVal :=
  .obj [("name", .str "client_register"),
        ("data", .obj [("type", .str "controller"),
                       ("id", .str ("controller-" ++ rid))]),
        ("createdAt", .num now)]

/-- An inbound pong envelope carrying an echoed send timestamp. -/
def pongEnvelope (sentAt createdAt : Int) : JsonVal :=
  .obj [("name", .str "pong"),
        ("data", .obj [("sentAt", .num sentAt)]),
        ("createdAt", .num createdAt)]

/-- An inbound battery info envelope carrying a level. -/
def batteryInfoEnvelope (level createdAt : Int) : JsonVal :=
  .obj [("name", .str "battery_info"),
        ("data", .obj [("level", .num level)]),
        ("createdAt", .num createdAt)]

/-- Embedding of the provider message handler: a parse failure is caught,
reported to the console and the error sink, and the frame is dropped; a
parsed envelope is tracked and then dispatched on its name string.  The
pong case overwrites the latency slot with now minus the echoed send time;
the data cases overwrite their slots and dispatch debug events; unknown
names fall through the switch.  The platform exception value itself is
outside the embedding, so the log payload keeps only the raw frame text. -/
def onmessage (now : Int) (frame : Frame) (s : ConnState) : ConnState × List Output :=
  match frame.parsed with
  | none =>
      (s, [.consoleError "Error parsing websocket message",
           .logErr "Error parsing WebSocket message"
             (.obj [("rawMessage", .str frame.raw)])])
  | some event =>
      let dispatched : ConnState × List Output :=
        match event.get "name" with
        | .str n =>
            if n = "pong" then
              ({ s with pingTime := some (jsSub now ((event.get "data").get "sentAt")) }, [])
            else if n = "battery_info" then
              ({ s with batteryLevel := some ((event.get "data").get "level") },
               [.dispatchEvent "debug:battery-update"
                  (.obj [("level", (event.get "data").get "level")])])
            else if n = "sensor_data" then
              ({ s with sensorData := some (event.get "data") }, [])
            else if n = "camera_status" then
              ({ s with cameraStatus := some (event.get "data") }, [])
            else if n = "settings" then
              (if ((event.get "data").get "settings").truthy then
                 { s with settings := some ((event.get "data").get "settings") }
               else s, [])
            else if n = "command_response" then
              ({ s with commandResponse := some (event.get "data") },
               [.dispatchEvent "debug:command-response" (event.get "data")])
            else if n = "network_list" then
              (s, [.dispatchEvent "debug:network-list" (event.get "data")])
            else if n = "gpt_response" then
              (s, [.dispatchEvent "debug:gpt-response" (event.get "data")])
            else (s, [])
        | _ => (s, [])
      (dispatched.1, .trackReceived event :: dispatched.2)

/-- Math.round on a rational: floor of the value plus one half, which is
the JavaScript rounding rule. -/
def jsRound (q : ℚ) : Int :=
  ⌊q + 1 / 2⌋

/-- Embedding of `requestBatteryLevel` against an explicit socket handle
(the handle the closure captured).  When the socket is open it transmits a
battery request; otherwise it fabricates a dummy level from the random
draw, stores it, and dispatches the same debug battery event a real
battery info message would. -/
def requestBatteryLevelWith (sock : Option Socket) (now : Int) (rand : ℚ)
    (s : ConnState) : ConnState × List Output :=
  if sockOpen sock then
    let m : JsonVal :=
      .obj [("name", .str "battery_request"),
            ("data", .obj [("timestamp", .num now)]),
            ("createdAt", .num now)]
    (s, [.send m, .trackSent m])
  else
    let dummyLevel := jsRound (65 + rand * 25)
    ({ s with batteryLevel := some (.num dummyLevel) },
     [.dispatchEvent "debug:battery-update"
        (.obj [("level", .num dummyLevel)])])

/-- Embedding of `requestBatteryLevel` reading the current socket. -/
def requestBatteryLevel (now : Int) (rand : ℚ) (s : ConnState) :
    ConnState × List Output :=
  requestBatteryLevelWith (currentSocket s) now rand s

/-- Embedding of the open handler: set status connected, track the
connection, send the registration envelope, request the battery level
through the stale socket handle the closure captured, and finally start
the 500 ms heartbeat interval. -/
def onopen (now : Int) (rid : String) (rand : ℚ) (staleSock : Option Socket)
    (s : ConnState) : ConnState × List Output :=
  let s1 := { s with status := WStatus.connected }
  let reg := registerEnvelope now rid
  let battery := requestBatteryLevelWith staleSock now rand s1
  ({ battery.1 with pingInterval := true },
   [.trackConn "connect", .send reg, .trackSent reg]
     ++ battery.2 ++ [.startPingInterval 500])

/-- Embedding of the close handler: status becomes disconnected, the
connection change is tracked, the heartbeat interval is cleared, and the
closed socket reaches readyState CLOSED. -/
def onclose (s : ConnState) : ConnState × List Output :=
  ({ s with status := .disconnected,
            pingInterval := false,
            sockets := setReadyState s.sockets s.current .CLOSED },
   [.trackConn "disconnect"])

/-- Embedding of the connection effect body: tear down any existing socket
(close it if live, clear the heartbeat interval), set status connecting,
and open a fresh socket that becomes the current one. -/
def connectionEffect (s : ConnState) : ConnState :=
  let s1 :=
    match s.current with
    | some _ =>
        { s with sockets := closeSocketList s.sockets s.current,
                 pingInterval := false }
    | none => s
  { s1 with status := .connecting,
            sockets := s1.sockets ++ [⟨s1.nextId, .CONNECTING⟩],
            current := some s1.nextId,
            nextId := s1.nextId + 1 }

/-- Embedding of the manual `disconnect` callback: close the current
socket when it is open or connecting, otherwise do nothing. -/
def disconnect (s : ConnState) : ConnState :=
  { s with sockets := closeSocketList s.sockets s.current }

/-- Embedding of the connection effect cleanup: clear the heartbeat
interval and close the socket if it is still live. -/
def effectCleanup (s : ConnState) : ConnState :=
  { s with pingInterval := false,
           sockets := closeSocketList s.sockets s.current }

/-- Re-evaluation of the bridge effect of the status component: its send
interval exists exactly while a socket exists, the status is connected and
a gamepad is selected. -/
def bridgeEffect (s : ConnState) : ConnState :=
  { s with bridgeTimer :=
      if s.current.isSome ∧ s.status = .connected ∧ s.gamepadSelected = true
      then true else false }

/-- Cleanup of the bridge effect: its send interval is cleared. -/
def bridgeCleanup (s : ConnState) : ConnState :=
  { s with bridgeTimer := false }

/-- Outputs of one heartbeat timer firing: nothing when the interval is
cleared; otherwise a ping is sent only when the socket is open. -/
def pingTickOuts (now : Int) (s : ConnState) : List Output :=
  if s.pingInterval then
    match currentSocket s with
    | some sock =>
        if sock.readyState = .OPEN then
          [.send (pingEnvelope now), .trackSent (pingEnvelope now)]
        else []
    | none => []
  else []

/-- One heartbeat timer firing; the handler mutates no provider state. -/
def pingTick (now : Int) (s : ConnState) : ConnState × List Output :=
  (s, pingTickOuts now s)

/-- Outputs of one bridge timer firing: nothing when the interval is
cleared; otherwise the gamepad snapshot is sent as a gamepad input
envelope. -/
def bridgeTickOuts (now : Int) (snap : JsonVal) (s : ConnState) : List Output :=
  if s.bridgeTimer then
    [.send (.obj [("name", .str "gamepad_input"),
                  ("data", snap),
                  ("createdAt", .num now)])]
  else []

/-- One bridge timer firing; the handler mutates no provider state. -/
def bridgeTick (now : Int) (snap : JsonVal) (s : ConnState) : ConnState × List Output :=
  (s, bridgeTickOuts now snap s)

/-- A timer firing: heartbeat or bridge, at some instant. -/
inductive TickEvent
  | ping (now : Int)
  | bridge (now : Int) (snap : JsonVal)

/-- Apply one timer firing. -/
def applyTick : TickEvent → ConnState → ConnState × List Output
  | .ping t, s => pingTick t s
  | .bridge t snap, s => bridgeTick t snap s

/-- Run a sequence of timer firings, collecting all outputs. -/
def runTicks : List TickEvent → ConnState → ConnState × List Output
  | [], s => (s, [])
  | ev :: rest, s =>
      let r1 := applyTick ev s
      let r2 := runTicks rest r1.1
      (r2.1, r1.2 ++ r2.2)

/-- The three disconnection paths of the provider: a manual disconnect
call (whose close then fires the close event), a close event from the
platform, and the effect teardown on unmount or re-run. -/
inductive DisconnectPath
  | manual
  | closeEvent
  | teardown

/-- The provider state after a disconnection along the given path,
including the re-evaluation of the bridge effect that observes the status
change. -/
def afterDisconnect : DisconnectPath → ConnState → ConnState
  | .manual, s => bridgeEffect (onclose (disconnect s)).1
  | .closeEvent, s => bridgeEffect (onclose s).1
  | .teardown, s => bridgeCleanup (effectCleanup s)

/-- Embedding of `sendGamepadState`: transmit when the socket is open,
otherwise do nothing at all (no log, no queueing). -/
def sendGamepadState (now : Int) (gamepadState : JsonVal) (s : ConnState) :
    ConnState × List Output :=
  if socketOpen s then
    let m : JsonVal :=
      .obj [("name", .str "gamepad_input"),
            ("data", gamepadState),
            ("createdAt", .num now)]
    (s, [.send m, .trackSent m])
  else (s, [])

/-- Embedding of `sendRobotCommand`: transmit when open, otherwise report
the failed attempt with the command and readyState to the error sink. -/
def sendRobotCommand (now : Int) (command : String) (s : ConnState) :
    ConnState × List Output :=
  if socketOpen s then
    let m : JsonVal :=
      .obj [("name", .str "robot_command"),
            ("data", .obj [("command", .str command), ("timestamp", .num now)]),
            ("createdAt", .num now)]
    (s, [.send m, .trackSent m])
  else
    (s, [.logErr "Cannot send robot command"
          (.obj [("reason", .str "Socket not connected"),
                 ("command", .str command),
                 ("readyState", readyStateJson (currentSocket s))])])

/-- Embedding of `updateSettings`: transmit when open, otherwise report the
failed attempt to the error sink. -/
def updateSettings (now : Int) (newSettings : JsonVal) (s : ConnState) :
    ConnState × List Output :=
  if socketOpen s then
    let m : JsonVal :=
      .obj [("name", .str "settings_update"),
            ("data", .obj [("settings", newSettings), ("timestamp", .num now)]),
            ("createdAt", .num now)]
    (s, [.send m, .trackSent m])
  else
    (s, [.logErr "Cannot send settings update"
          (.obj [("reason", .str "Socket not connected"),
                 ("readyState", readyStateJson (currentSocket s))])])

/-- Embedding of `speakText`. -/
def speakText (now : Int) (text : String) (s : ConnState) :
    ConnState × List Output :=
  if socketOpen s then
    let m : JsonVal :=
      .obj [("name", .str "speak_text"),
            ("data", .obj [("text", .str text), ("timestamp", .num now)]),
            ("createdAt", .num now)]
    (s, [.send m, .trackSent m])
  else
    (s, [.logErr "Cannot send text to speak"
          (.obj [("reason", .str "Socket not connected"),
                 ("readyState", readyStateJson (currentSocket s))])])

/-- Embedding of `playSound`. -/
def playSound (now : Int) (sound : String) (s : ConnState) :
    ConnState × List Output :=
  if socketOpen s then
    let m : JsonVal :=
      .obj [("name", .str "play_sound"),
            ("data", .obj [("sound", .str sound), ("timestamp", .num now)]),
            ("createdAt", .num now)]
    (s, [.send m, .trackSent m])
  else
    (s, [.logErr "Cannot send sound to play"
          (.obj [("reason", .str "Socket not connected"),
                 ("readyState", readyStateJson (currentSocket s))])])

/-- Embedding of `scanNetworks`. -/
def scanNetworks (now : Int) (s : ConnState) : ConnState × List Output :=
  if socketOpen s then
    let m : JsonVal :=
      .obj [("name", .str "network_scan"),
            ("data", .obj [("timestamp", .num now)]),
            ("createdAt", .num now)]
    (s, [.send m, .trackSent m])
  else
    (s, [.logErr "Cannot send network scan request"
          (.obj [("reason", .str "Socket not connected"),
                 ("readyState", readyStateJson (currentSocket s))])])

/-- Embedding of `updateNetwork`: the action and the update fields are
spread into the payload before the timestamp. -/
def updateNetwork (now : Int) (action : String) (data : List (String × JsonVal))
    (s : ConnState) : ConnState × List Output :=
  if socketOpen s then
    let m : JsonVal :=
      .obj [("name", .str "network_update"),
            ("data", .obj (("action", .str action) :: data
                             ++ [("timestamp", .num now)])),
            ("createdAt", .num now)]
    (s, [.send m, .trackSent m])
  else
    (s, [.logErr "Cannot send network update"
          (.obj [("reason", .str "Socket not connected"),
                 ("readyState", readyStateJson (currentSocket s))])])

/-- Embedding of `sendGptCommand`. -/
def sendGptCommand (now : Int) (prompt : String) (useCamera : Bool)
    (s : ConnState) : ConnState × List Output :=
  if socketOpen s then
    let m : JsonVal :=
      .obj [("name", .str "gpt_command"),
            ("data", .obj [("prompt", .str prompt),
                           ("useCamera", .bool useCamera),
                           ("timestamp", .num now)]),
            ("createdAt", .num now)]
    (s, [.send m, .trackSent m])
  else
    (s, [.logErr "Cannot send GPT command"
          (.obj [("reason", .str "Socket not connected"),
                 ("readyState", readyStateJson (currentSocket s))])])

/-- All socket identities are below the fresh-id counter. -/
def idsBounded (s : ConnState) : Prop :=
  ∀ sock ∈ s.sockets, sock.id < s.nextId

/-- Every live socket is the one the provider currently references. -/
def liveIsCurrent (s : ConnState) : Prop :=
  ∀ sock ∈ s.sockets, sock.isLive = true → s.current = some sock.id

/-- The sockets that are currently connecting or open. -/
def liveSockets (s : ConnState) : List Socket :=
  s.sockets.filter (fun sock => sock.isLive)

/-- An unbound accelerate mapping resolves to 0 in the speed computation. -/
theorem accelerateValue_of_unbound (ctx : GamepadCtx)
    (mappings : String → Option Mapping) (h : UnboundAt mappings "accelerate") :
    accelerateValue ctx mappings = 0 := by
  rcases h with h | ⟨m, hm, hidx⟩
  · simp [accelerateValue, h]
  · simp [accelerateValue, hm, hidx]

/-- An unbound brake mapping resolves to 0 in the speed computation. -/
theorem brakeValue_of_unbound (ctx : GamepadCtx)
    (mappings : String → Option Mapping) (h : UnboundAt mappings "brake") :
    brakeValue ctx mappings = 0 := by
  rcases h with h | ⟨m, hm, hidx⟩
  · simp [brakeValue, h]
  · simp [brakeValue, hm, hidx]

/-- C1: the composed speed equals the resolved accelerate value minus the
resolved brake value with no clamping: both actions button-bound and
active gives speed 0; accelerate button-bound and active with brake
unbound gives speed 1; accelerate axis-bound reading v with brake unbound
gives speed v. -/
theorem computeSpeed_spec (ctx : GamepadCtx) (mappings : String → Option Mapping) :
    computeSpeed ctx mappings = accelerateValue ctx mappings - brakeValue ctx mappings ∧
    (∀ ia ib : Int, mappings "accelerate" = some ⟨.button, ia⟩ → ia ≠ -1 →
       mappings "brake" = some ⟨.button, ib⟩ → ib ≠ -1 →
       ctx.isActionActive "accelerate" = true → ctx.isActionActive "brake" = true →
       computeSpeed ctx mappings = 0) ∧
    (∀ ia : Int, mappings "accelerate" = some ⟨.button, ia⟩ → ia ≠ -1 →
       ctx.isActionActive "accelerate" = true → UnboundAt mappings "brake" →
       computeSpeed ctx mappings = 1) ∧
    (∀ (ia : Int) (v : ℚ), mappings "accelerate" = some ⟨.axis, ia⟩ → ia ≠ -1 →
       ctx.getAxisValueForAction "accelerate" = some v → UnboundAt mappings "brake" →
       computeSpeed ctx mappings = v) := by
  refine ⟨rfl, ?_, ?_, ?_⟩
  · intro ia ib ha hia hb hib hacta hactb
    simp [computeSpeed, accelerateValue, brakeValue, ha, hb, hia, hib, hacta, hactb]
  · intro ia ha hia hacta hbr
    simp [computeSpeed, accelerateValue, ha, hia, hacta,
          brakeValue_of_unbound ctx mappings hbr]
  · intro ia v ha hia hax hbr
    simp [computeSpeed, accelerateValue, ha, hia, hax,
          brakeValue_of_unbound ctx mappings hbr]

/-- Witness for C1: with both actions button-bound to valid indices and
both buttons pressed, the composed speed is 0. -/
theorem computeSpeed_spec_witness :
    computeSpeed ⟨fun _ => true, fun _ => some 0⟩
      (fun a => if a = "accelerate" then some ⟨.button, 0⟩
                else if a = "brake" then some ⟨.button, 1⟩ else none) = 0 :=
  (computeSpeed_spec _ _).2.1 0 1 (by simp) (by decide) (by simp) (by decide) rfl rfl

/-- Counterexample for C2: with every action unbound, `getActionValue`
returns the boolean false (not the number 0) for accelerate, and the
number 0 (not the boolean false) for use. -/
theorem getActionValue_unbound_cex :
    getActionValue ⟨fun _ => true, fun _ => some 1⟩
        (fun _ => some ⟨.unbound, -1⟩) "accelerate" = JSValue.bool false ∧
    getActionValue ⟨fun _ => true, fun _ => some 1⟩
        (fun _ => some ⟨.unbound, -1⟩) "accelerate" ≠ JSValue.num 0 ∧
    getActionValue ⟨fun _ => true, fun _ => some 1⟩
        (fun _ => some ⟨.unbound, -1⟩) "use" = JSValue.num 0 ∧
    getActionValue ⟨fun _ => true, fun _ => some 1⟩
        (fun _ => some ⟨.unbound, -1⟩) "use" ≠ JSValue.bool false := by
  refine ⟨rfl, by decide, rfl, by decide⟩

/-- C2 amended: for every unbound binding and every device state,
`getActionValue` returns the boolean false for the bipolar actions
accelerate and brake and the number 0 for every other action including
use, and the internal speed resolvers return 0 for unbound accelerate and
brake. -/
theorem getActionValue_unbound_amended (ctx : GamepadCtx)
    (mappings : String → Option Mapping) (actionKey : String)
    (h : UnboundAt mappings actionKey) :
    getActionValue ctx mappings actionKey =
      (if actionKey = "accelerate" || actionKey = "brake"
       then JSValue.bool false else JSValue.num 0) ∧
    (UnboundAt mappings "accelerate" → accelerateValue ctx mappings = 0) ∧
    (UnboundAt mappings "brake" → brakeValue ctx mappings = 0) := by
  refine ⟨?_, accelerateValue_of_unbound ctx mappings, brakeValue_of_unbound ctx mappings⟩
  rcases h with h | ⟨m, hm, hidx⟩
  · simp [getActionValue, h]
  · simp [getActionValue, hm, hidx]

/-- Witness for C2 amended: an unbound use action resolves to the number 0. -/
theorem getActionValue_unbound_amended_witness :
    getActionValue ⟨fun _ => false, fun _ => none⟩ (fun _ => none) "use" =
      JSValue.num 0 := by
  have h := (getActionValue_unbound_amended ⟨fun _ => false, fun _ => none⟩
    (fun _ => none) "use" (Or.inl rfl)).1
  simpa using h

/-- A connected provider state holding one open socket with the heartbeat
running and a gamepad selected; used as a concrete test state. -/
def liveState : ConnState :=
  { initState with status := .connected, sockets := [⟨0, .OPEN⟩],
                   current := some 0, pingInterval := true,
                   bridgeTimer := true, gamepadSelected := true }

/-- Counterexample for C3: the heartbeat sends a ping with sentAt 1000, yet
a pong whose echoed sentAt is 55 (matching no recent ping) still produces a
latency sample of 2000 - 55 = 1945. -/
theorem pong_mismatch_cex :
    sends (pingTick 1000 liveState).2 = [pingEnvelope 1000] ∧
    ((onmessage 2000 ⟨"", some (pongEnvelope 55 55)⟩
        (pingTick 1000 liveState).1).1).pingTime = some (.num 1945) := by
  exact ⟨rfl, rfl⟩

/-- C3 amended: the pong handler performs no matching against the most
recently sent ping: even when the echoed sentAt differs from the timestamp
of the ping the heartbeat just sent, the pong still produces a latency
sample of now minus the echoed sentAt. -/
theorem pong_updates_without_matching (s : ConnState) (p T now : Int) (raw : String)
    (hping : s.pingInterval = true) (hopen : socketOpen s = true) (hdiff : T ≠ p) :
    sends (pingTick p s).2 = [pingEnvelope p] ∧
    ((onmessage now ⟨raw, some (pongEnvelope T T)⟩ (pingTick p s).1).1).pingTime
      = some (.num (now - T)) := by
  constructor
  · rcases hcs : currentSocket s with _ | sock
    · simp [socketOpen, hcs, sockOpen] at hopen
    · have hrs : sock.readyState = .OPEN := by
        simpa [socketOpen, hcs, sockOpen] using hopen
      simp [pingTick, pingTickOuts, hping, hcs, hrs, sends, sentOf]
  · simp [onmessage, pingTick, pongEnvelope, JsonVal.get, getField, jsSub,
          JsonVal.toNumber]

/-- Witness for C3 amended: a ping is sent at 500, a pong echoing 42
arrives at 987 and still updates the latency slot to 945. -/
theorem pong_updates_without_matching_witness :
    sends (pingTick 500 liveState).2 = [pingEnvelope 500] ∧
    ((onmessage 987 ⟨"x", some (pongEnvelope 42 42)⟩
        (pingTick 500 liveState).1).1).pingTime = some (.num (987 - 42)) :=
  pong_updates_without_matching liveState 500 42 987 "x" rfl rfl (by decide)

/-- C4: a pong whose echoed sentAt is T processed at T + d sets the latency
slot to exactly d, overwriting whatever was there, for every prior state;
in particular at T + 37 the slot becomes 37. -/
theorem pong_latency_update (T d c : Int) (raw : String) (s : ConnState) :
    ((onmessage (T + d) ⟨raw, some (pongEnvelope T c)⟩ s).1).pingTime
      = some (.num d) ∧
    ((onmessage (T + 37) ⟨raw, some (pongEnvelope T c)⟩ s).1).pingTime
      = some (.num 37) := by
  constructor <;>
    simp [onmessage, pongEnvelope, JsonVal.get, getField, jsSub, JsonVal.toNumber]

/-- C5: a frame that fails to parse is reported to the console and the
error sink and is otherwise discarded: the state (connection status and
every data slot) is returned unchanged and nothing is transmitted. -/
theorem malformed_frame_discarded (now : Int) (raw : String) (s : ConnState) :
    onmessage now ⟨raw, none⟩ s =
      (s, [.consoleError "Error parsing websocket message",
           .logErr "Error parsing WebSocket message"
             (.obj [("rawMessage", .str raw)])]) ∧
    sends (onmessage now ⟨raw, none⟩ s).2 = [] :=
  ⟨rfl, rfl⟩

/-- Closing the referenced socket kills every live socket, provided every
live socket was the referenced one. -/
theorem isLive_closeSocketList (sockets : List Socket) (cur : Option Nat)
    (h : ∀ sock ∈ sockets, sock.isLive = true → cur = some sock.id) :
    ∀ sock ∈ closeSocketList sockets cur, sock.isLive = false := by
  intro y hy
  simp only [closeSocketList, List.mem_map] at hy
  rcases hy with ⟨x, hx, rfl⟩
  split
  · rfl
  · next hcond =>
      cases hl : x.isLive with
      | false => rfl
      | true => exact absurd ⟨h x hx hl, hl⟩ hcond

/-- The live sockets after the connection effect are exactly the freshly
created connecting socket. -/
theorem liveSockets_connectionEffect (s : ConnState) (h2 : liveIsCurrent s) :
    liveSockets (connectionEffect s) = [⟨s.nextId, .CONNECTING⟩] := by
  cases hcur : s.current with
  | none =>
      have h1 : s.sockets.filter (fun sock => sock.isLive) = [] := by
        apply List.filter_eq_nil_iff.mpr
        intro a ha
        cases hl : a.isLive with
        | false => simp [hl]
        | true =>
            have hc := h2 a ha hl
            rw [hcur] at hc
            exact Option.noConfusion hc
      simp only [liveSockets, connectionEffect, hcur]
      rw [List.filter_append, h1]
      rfl
  | some cid =>
      have h1 : (closeSocketList s.sockets (some cid)).filter
          (fun sock => sock.isLive) = [] := by
        apply List.filter_eq_nil_iff.mpr
        intro a ha
        have hd := isLive_closeSocketList s.sockets (some cid)
          (fun sock hmem hl => hcur ▸ h2 sock hmem hl) a ha
        simp [hd]
      simp only [liveSockets, connectionEffect, hcur]
      rw [List.filter_append, h1]
      rfl

/-- The connection effect preserves the property that every live socket is
the referenced one. -/
theorem liveIsCurrent_connectionEffect (s : ConnState) (h2 : liveIsCurrent s) :
    liveIsCurrent (connectionEffect s) := by
  intro sock hmem hl
  have hmemf : sock ∈ liveSockets (connectionEffect s) := by
    simp only [liveSockets, List.mem_filter]
    exact ⟨hmem, by simp [hl]⟩
  rw [liveSockets_connectionEffect s h2] at hmemf
  have hs : sock = ⟨s.nextId, .CONNECTING⟩ := by simpa using hmemf
  subst hs
  cases hcur : s.current <;> simp [connectionEffect, hcur]

/-- C6: a connect call tears the prior socket down before opening a new
one: if the provider referenced a socket, the heartbeat interval is
cleared and a live referenced socket is moved to CLOSING, and two connect
calls in a row leave exactly one socket in connecting or open state. -/
theorem connect_twice_one_live (s : ConnState) (h2 : liveIsCurrent s) :
    (liveSockets (connectionEffect (connectionEffect s))).length = 1 ∧
    (connectionEffect (connectionEffect s)).status = .connecting ∧
    (∀ cid, s.current = some cid → (connectionEffect s).pingInterval = false) ∧
    (∀ sock, sock ∈ s.sockets → s.current = some sock.id → sock.isLive = true →
       ({ sock with readyState := ReadyState.CLOSING } : Socket) ∈
         (connectionEffect s).sockets) := by
  refine ⟨?_, ?_, ?_, ?_⟩
  · rw [liveSockets_connectionEffect _ (liveIsCurrent_connectionEffect s h2)]
    rfl
  · rfl
  · intro cid hcid
    simp [connectionEffect, hcid]
  · intro sock hmem hcid hl
    cases hcur : s.current with
    | none => rw [hcur] at hcid; exact Option.noConfusion hcid
    | some c =>
        rw [hcur] at hcid
        simp only [connectionEffect, hcur]
        refine List.mem_append_left _ ?_
        simp only [closeSocketList, List.mem_map]
        exact ⟨sock, hmem, by rw [if_pos ⟨hcid, hl⟩]⟩

/-- Witness for C6: from the initial state, two connect calls leave exactly
one live socket. -/
theorem connect_twice_one_live_witness :
    (liveSockets (connectionEffect (connectionEffect initState))).length = 1 :=
  (connect_twice_one_live initState
    (fun sock hmem _ => absurd hmem (List.not_mem_nil sock))).1

/-- With both timer flags cleared, a sequence of timer firings transmits
nothing. -/
theorem ticks_no_sends (evs : List TickEvent) (s : ConnState)
    (hp : s.pingInterval = false) (hb : s.bridgeTimer = false) :
    sends (runTicks evs s).2 = [] := by
  induction evs with
  | nil => rfl
  | cons ev rest ih =>
      have hstate : (applyTick ev s).1 = s := by cases ev <;> rfl
      have houts : (applyTick ev s).2 = [] := by
        cases ev <;>
          simp [applyTick, pingTick, bridgeTick, pingTickOuts, bridgeTickOuts, hp, hb]
      simp only [runTicks, sends, List.filterMap_append]
      rw [hstate, houts]
      simpa [sends] using ih

/-- C7: along each disconnection path (manual disconnect, close event, or
effect teardown) both the heartbeat interval and the bridge send interval
end up cleared, and however many timer firings follow, nothing further is
transmitted. -/
theorem no_sends_after_disconnect (p : DisconnectPath) (s : ConnState)
    (evs : List TickEvent) :
    (afterDisconnect p s).pingInterval = false ∧
    (afterDisconnect p s).bridgeTimer = false ∧
    sends (runTicks evs (afterDisconnect p s)).2 = [] := by
  have hp : (afterDisconnect p s).pingInterval = false := by
    cases p <;>
      simp [afterDisconnect, bridgeEffect, onclose, disconnect, effectCleanup,
            bridgeCleanup]
  have hb : (afterDisconnect p s).bridgeTimer = false := by
    cases p <;>
      simp [afterDisconnect, bridgeEffect, onclose, disconnect, effectCleanup,
            bridgeCleanup]
  exact ⟨hp, hb, ticks_no_sends evs _ hp hb⟩

/-- Counterexample for C8: while disconnected, `sendGamepadState` does
nothing at all: the state is unchanged and no output — in particular no
report to the logging sink — is produced. -/
theorem send_gamepad_silent_cex :
    sendGamepadState 0 (.obj []) initState = (initState, []) := rfl

/-- C8 amended: while the socket is not open, sendRobotCommand,
updateSettings, speakText, playSound, scanNetworks, updateNetwork and
sendGptCommand each report the attempted action and the current readyState
to the logging sink and skip the send; sendGamepadState skips silently
with no report; requestBatteryLevel transmits nothing but fabricates a
dummy battery level instead of reporting. -/
theorem send_disconnected_amended (now : Int) (s : ConnState)
    (gamepadState newSettings : JsonVal) (networkData : List (String × JsonVal))
    (cmd text sound action prompt : String) (useCamera : Bool) (rand : ℚ)
    (h : socketOpen s = false) :
    sendGamepadState now gamepadState s = (s, []) ∧
    sendRobotCommand now cmd s =
      (s, [.logErr "Cannot send robot command"
            (.obj [("reason", .str "Socket not connected"),
                   ("command", .str cmd),
                   ("readyState", readyStateJson (currentSocket s))])]) ∧
    updateSettings now newSettings s =
      (s, [.logErr "Cannot send settings update"
            (.obj [("reason", .str "Socket not connected"),
                   ("readyState", readyStateJson (currentSocket s))])]) ∧
    speakText now text s =
      (s, [.logErr "Cannot send text to speak"
            (.obj [("reason", .str "Socket not connected"),
                   ("readyState", readyStateJson (currentSocket s))])]) ∧
    playSound now sound s =
      (s, [.logErr "Cannot send sound to play"
            (.obj [("reason", .str "Socket not connected"),
                   ("readyState", readyStateJson (currentSocket s))])]) ∧
    scanNetworks now s =
      (s, [.logErr "Cannot send network scan request"
            (.obj [("reason", .str "Socket not connected"),
                   ("readyState", readyStateJson (currentSocket s))])]) ∧
    updateNetwork now action networkData s =
      (s, [.logErr "Cannot send network update"
            (.obj [("reason", .str "Socket not connected"),
                   ("readyState", readyStateJson (currentSocket s))])]) ∧
    sendGptCommand now prompt useCamera s =
      (s, [.logErr "Cannot send GPT command"
            (.obj [("reason", .str "Socket not connected"),
                   ("readyState", readyStateJson (currentSocket s))])]) ∧
    sends (requestBatteryLevel now rand s).2 = [] := by
  have h' : sockOpen (currentSocket s) = false := h
  refine ⟨?_, ?_, ?_, ?_, ?_, ?_, ?_, ?_, ?_⟩ <;>
    simp [sendGamepadState, sendRobotCommand, updateSettings, speakText,
          playSound, scanNetworks, updateNetwork, sendGptCommand,
          requestBatteryLevel, requestBatteryLevelWith, socketOpen, h, h',
          sends, sentOf]

/-- Witness for C8 amended: a robot command attempted in the initial
(disconnected) state is logged with the command and readyState and not
transmitted. -/
theorem send_disconnected_amended_witness :
    sendRobotCommand 5 "stop_robot" initState =
      (initState, [.logErr "Cannot send robot command"
        (.obj [("reason", .str "Socket not connected"),
               ("command", .str "stop_robot"),
               ("readyState", readyStateJson (currentSocket initState))])]) :=
  (send_disconnected_amended 5 initState (.obj []) (.obj []) [] "stop_robot"
    "t" "s" "a" "p" false 0 rfl).2.1

/-- A heartbeat firing on a state with the interval running and an open
socket transmits exactly one ping envelope carrying the firing time. -/
theorem pingTick_sends_of_open (t : Int) (s : ConnState)
    (hping : s.pingInterval = true) (hopen : socketOpen s = true) :
    sends (pingTick t s).2 = [pingEnvelope t] := by
  rcases hcs : currentSocket s with _ | sock
  · simp [socketOpen, hcs, sockOpen] at hopen
  · have hrs : sock.readyState = .OPEN := by
      simpa [socketOpen, hcs, sockOpen] using hopen
    simp [pingTick, pingTickOuts, hping, hcs, hrs, sends, sentOf]

/-- C9: on the open transition the first transmitted envelope is the
client registration, whose data identifies a controller with the random
session identifier; the heartbeat interval of 500 ms is registered as the
very last step, after the registration send, and once running it sends a
ping envelope whose payload carries the firing time whenever the socket is
open. -/
theorem onopen_register_first (now : Int) (rid : String) (rand : ℚ)
    (staleSock : Option Socket) (s : ConnState) :
    (sends (onopen now rid rand staleSock s).2).head? =
        some (registerEnvelope now rid) ∧
    (registerEnvelope now rid).get "name" = .str "client_register" ∧
    ((registerEnvelope now rid).get "data").get "type" = .str "controller" ∧
    ((registerEnvelope now rid).get "data").get "id" =
        .str ("controller-" ++ rid) ∧
    (onopen now rid rand staleSock s).2.getLast? =
        some (.startPingInterval 500) ∧
    (onopen now rid rand staleSock s).1.status = .connected ∧
    (onopen now rid rand staleSock s).1.pingInterval = true ∧
    (∀ t : Int, socketOpen (onopen now rid rand staleSock s).1 = true →
       sends (pingTick t (onopen now rid rand staleSock s).1).2 =
         [pingEnvelope t]) := by
  have hping : (onopen now rid rand staleSock s).1.pingInterval = true := by
    simp [onopen]
  refine ⟨?_, rfl, rfl, rfl, ?_, ?_, hping, ?_⟩
  · by_cases hst : sockOpen staleSock = true <;>
      simp [onopen, requestBatteryLevelWith, hst, sends, sentOf]
  · by_cases hst : sockOpen staleSock = true <;>
      simp [onopen, requestBatteryLevelWith, hst]
  · by_cases hst : sockOpen staleSock = true <;>
      simp [onopen, requestBatteryLevelWith, hst]
  · intro t hopen
    exact pingTick_sends_of_open t _ hping hopen

/-- Witness for C9: opening on the live test state sends the registration
envelope first, and the heartbeat then transmits a ping at a later firing. -/
theorem onopen_register_first_witness :
    (sends (onopen 10 "abc" 0 none liveState).2).head? =
        some (registerEnvelope 10 "abc") ∧
    sends (pingTick 20 (onopen 10 "abc" 0 none liveState).1).2 =
        [pingEnvelope 20] :=
  ⟨(onopen_register_first 10 "abc" 0 none liveState).1,
   (onopen_register_first 10 "abc" 0 none liveState).2.2.2.2.2.2.2 20 rfl⟩

/-- C10: a battery request while the socket is not open transmits nothing;
it stores a dummy level, which always lies between 65 and 90 inclusive,
and dispatches the debug battery event carrying that level — the same
event a real inbound battery info envelope with that level would dispatch. -/
theorem requestBatteryLevel_dummy (now : Int) (rand : ℚ) (s : ConnState)
    (h0 : 0 ≤ rand) (h1 : rand < 1) (h : socketOpen s = false) :
    sends (requestBatteryLevel now rand s).2 = [] ∧
    65 ≤ jsRound (65 + rand * 25) ∧ jsRound (65 + rand * 25) ≤ 90 ∧
    (requestBatteryLevel now rand s).1 =
      { s with batteryLevel := some (.num (jsRound (65 + rand * 25))) } ∧
    (requestBatteryLevel now rand s).2 =
      [.dispatchEvent "debug:battery-update"
        (.obj [("level", .num (jsRound (65 + rand * 25)))])] ∧
    (∀ (raw : String) (c : Int),
      (onmessage now ⟨raw, some (batteryInfoEnvelope (jsRound (65 + rand * 25)) c)⟩ s).2 =
        [.trackReceived (batteryInfoEnvelope (jsRound (65 + rand * 25)) c),
         .dispatchEvent "debug:battery-update"
           (.obj [("level", .num (jsRound (65 + rand * 25)))])]) := by
  have h' : sockOpen (currentSocket s) = false := h
  have hlo : (65 : Int) ≤ jsRound (65 + rand * 25) := by
    rw [jsRound]
    apply Int.le_floor.mpr
    push_cast
    nlinarith
  have hhi : jsRound (65 + rand * 25) ≤ 90 := by
    rw [jsRound]
    have hlt : ⌊(65 + rand * 25 + 1 / 2 : ℚ)⌋ < 91 := by
      apply Int.floor_lt.mpr
      push_cast
      nlinarith
    omega
  refine ⟨?_, hlo, hhi, ?_, ?_, ?_⟩
  · simp [requestBatteryLevel, requestBatteryLevelWith, h', sends, sentOf]
  · simp [requestBatteryLevel, requestBatteryLevelWith, h']
  · simp [requestBatteryLevel, requestBatteryLevelWith, h']
  · intro raw c
    simp [onmessage, batteryInfoEnvelope, JsonVal.get, getField]

/-- Witness for C10: with a zero random draw in the initial state the
request transmits nothing and the dummy level bounds hold. -/
theorem requestBatteryLevel_dummy_witness :
    sends (requestBatteryLevel 0 0 initState).2 = [] ∧
    65 ≤ jsRound (65 + 0 * 25) ∧ jsRound (65 + 0 * 25) ≤ 90 :=
  ⟨(requestBatteryLevel_dummy 0 0 initState le_rfl (by norm_num) rfl).1,
   (requestBatteryLevel_dummy 0 0 initState le_rfl (by norm_num) rfl).2.1,
   (requestBatteryLevel_dummy 0 0 initState le_rfl (by norm_num) rfl).2.2.1⟩
